import Mathlib

/-!
The simulated SPI peripheral of mspdebug (simio/simio_spi.c).

A shallow embedding of the device: the fields of struct spi are a record, the
shared interrupt-flag register and the traffic on the request-reply socket are
an explicit world that every operation threads through, and the host services
the file calls without defining (expression evaluator, socket opening) are
parameters.

Conventions.
* uint8_t and address_t values are natural numbers; a conversion to uint8_t that
  the source performs is written as an explicit remainder by 256.
* The C expression 1 << n on an int is shl1: C defines it for n up to 30 only, and
  interrupt_bit is a uint8_t, so larger counts are representable; there the model
  takes what the compiled code computes, the shift by the count modulo 32.
* The shared register SIMIO_IFG2 is one byte: a world carries the bound with the
  value, and a masked modify works on the low eight bits of mask and value.
* zsock_send and zsock_recv are modelled on their success path: the source ignores
  their return values, and the peer is taken to answer, so the blocking receive
  returns the next byte of the peer's reply stream.
* Text written with printc_err is not modelled; the report spi_info writes with
  printc is its result.
-/

namespace SimioSpi

/-- Bus address, the address_t of the host simulator. -/
abbrev address_t := Nat

/-- Byte, a value below 256; conversions into it are explicit in the model. -/
abbrev uint8_t := Nat

/-- Value of the READ define. -/
def READ : Int := 0

/-- Value of the WRITE define. -/
def WRITE : Int := 1

/-- Handle of one request socket: a serial number given at opening and the
endpoint it was opened against. -/
structure zsock_t where
  id : Nat
  endpoint : String
deriving DecidableEq, Repr

/-- What the device does on the transport, in the order it does it. -/
inductive Event where
  | new_req (s : zsock_t)
  | destroy (s : zsock_t)
  | send (s : zsock_t) (data : uint8_t)
  | recv (s : zsock_t) (data : uint8_t)
deriving DecidableEq, Repr

/-- The fields of struct spi (the base member carries only the class pointer). -/
structure spi where
  interrupt_bit : uint8_t
  rx_addr : address_t
  rx_reg : uint8_t
  tx_addr : address_t
  last_op : Int
  sock : zsock_t
deriving DecidableEq, Repr

/-- Everything outside the device that its operations touch: the shared register
SIMIO_IFG2, a byte, the transport traffic so far (oldest first), the bytes the
peer supplies to the coming receives (index 0 is the next one), and the serial
number of the next socket. -/
structure World where
  IFG2 : Nat
  IFG2_lt : IFG2 < 256
  trace : List Event
  peer : Nat → uint8_t
  next_id : Nat

/-- Result of the expression evaluator expr_eval: success stores the value through
the output pointer and returns 0; failure returns a negative code and may or may
not have stored something. -/
inductive expr_result where
  | ok (value : address_t)
  | fail (stored : Option address_t)
deriving DecidableEq, Repr

/-- Host services used by the configuration code. -/
structure Host where
  expr_eval : String → expr_result
  can_open : String → Bool

/-- Modelled from the spec: simio_sfr_modify of the host simulator, on the register
value: bits in mask are set to the corresponding bits of the given value, all other
bits are left untouched. -/
def sfr_modify (reg mask bits : Nat) : Nat :=
  (reg ^^^ (reg &&& mask)) ||| (bits &&& mask)

/-- The C expression 1 << n on an int, as an unsigned 32-bit pattern. For n up to
30 this is the value C defines; for larger counts, where C leaves the shift
undefined, it is the value the compiled code computes, the shift by the count
modulo 32 (1 << 34 is 4). -/
def shl1 (n : Nat) : Nat :=
  1 <<< (n % 32)

/-- The call simio_sfr_modify(SIMIO_IFG2, mask, bits): mask and value are bytes, and
so is the register afterwards. -/
def simio_sfr_modify (w : World) (mask bits : Nat) : World :=
  { w with
    IFG2 := sfr_modify w.IFG2 (mask % 256) (bits % 256)
    IFG2_lt := by
      have h8 : (256 : Nat) = 2 ^ 8 := by norm_num
      have hr : w.IFG2 < 2 ^ 8 := h8 ▸ w.IFG2_lt
      have hb : bits % 256 < 2 ^ 8 := h8 ▸ Nat.mod_lt _ (by norm_num)
      rw [h8]
      exact Nat.or_lt_two_pow
        (Nat.xor_lt_two_pow hr (Nat.and_lt_two_pow _ (h8 ▸ Nat.mod_lt _ (by norm_num))))
        (Nat.lt_of_le_of_lt Nat.and_le_left hb) }

/-- The call zsock_send(sock, "1", data): one byte goes out as a request. -/
def zsock_send (w : World) (s : zsock_t) (data : uint8_t) : World :=
  { w with trace := w.trace ++ [Event.send s data] }

/-- The call zsock_recv(sock, "1", &byte): the next reply byte of the peer is
consumed and handed back. -/
def zsock_recv (w : World) (s : zsock_t) : uint8_t × World :=
  (w.peer 0,
   { w with trace := w.trace ++ [Event.recv s (w.peer 0)],
            peer := fun k => w.peer (k + 1) })

/-- The call zsock_new_req(endpoint): a new socket, or none when the endpoint cannot
be opened (nothing happens then). -/
def zsock_new_req (h : Host) (w : World) (endpoint : String) : Option zsock_t × World :=
  if h.can_open endpoint then
    (some ⟨w.next_id, endpoint⟩,
     { w with trace := w.trace ++ [Event.new_req ⟨w.next_id, endpoint⟩],
              next_id := w.next_id + 1 })
  else (none, w)

/-- The call zsock_destroy(&sock). -/
def zsock_destroy (w : World) (s : zsock_t) : World :=
  { w with trace := w.trace ++ [Event.destroy s] }

/-- Modelled from the spec: get_arg of the host, on a token stream: the next token
and the rest of the stream, or none when no argument is left. -/
def get_arg (arg_text : List String) : Option String × List String :=
  match arg_text with
  | [] => (none, [])
  | t :: rest => (some t, rest)

/-- The libc strcasecmp: 0 when the strings agree up to the case of ASCII letters,
otherwise the sign of the comparison of the lowered strings. -/
def strcasecmp (a b : String) : Int :=
  if a.data.map Char.toLower = b.data.map Char.toLower then 0
  else if a.data.map Char.toLower < b.data.map Char.toLower then -1 else 1

/-- Return value, device and world after spi_write_b. -/
structure WriteOut where
  ret : Int
  dev : spi
  world : World

/-- Return value, content of the output byte, device and world after spi_read_b. -/
structure ReadOut where
  ret : Int
  data : uint8_t
  dev : spi
  world : World

/-- Return value, device, world and remaining arguments after spi_config. -/
structure ConfigOut where
  ret : Int
  dev : spi
  world : World
  arg_text : List String

/-- The function spi_create: the arguments are ignored, the defaults are those of
UCB0; the assertion on the socket fails when the default endpoint cannot be
opened, and no device results. -/
def spi_create (h : Host) (w : World) (_arg_text : List String) : Option (spi × World) :=
  match zsock_new_req h w "ipc:///tmp/simio_UCB0.sock" with
  | (some s, w1) =>
    some ({ interrupt_bit := 2, rx_addr := 0x006E, tx_addr := 0x006F,
            rx_reg := 0x00, last_op := 0, sock := s }, w1)
  | (none, _) => none

/-- The function spi_destroy: the socket is released. -/
def spi_destroy (g : spi) (w : World) : World :=
  zsock_destroy w g.sock

/-- The function spi_reset. The mask is passed as the source writes it. -/
def spi_reset (g : spi) (w : World) : spi × World :=
  ({ g with rx_reg := 0x00, last_op := READ },
   simio_sfr_modify w (shl1 g.interrupt_bit) 0)

/-- The function config_addr, on the address field it is given. -/
def config_addr (h : Host) (addr : address_t) (arg_text : List String) :
    Int × address_t × List String :=
  match get_arg arg_text with
  | (none, rest) => (-1, addr, rest)
  | (some text, rest) =>
    match h.expr_eval text with
    | expr_result.fail stored => (-1, stored.getD addr, rest)
    | expr_result.ok value => (0, value, rest)

/-- The function config_irq: the evaluator writes a local, which is converted to
uint8_t on success only. -/
def config_irq (h : Host) (irq : uint8_t) (arg_text : List String) :
    Int × uint8_t × List String :=
  match get_arg arg_text with
  | (none, rest) => (-1, irq, rest)
  | (some text, rest) =>
    match h.expr_eval text with
    | expr_result.fail _ => (-1, irq, rest)
    | expr_result.ok value => (0, value % 256, rest)

/-- The function config_endpoint. -/
def config_endpoint (h : Host) (g : spi) (w : World) (arg_text : List String) :
    ConfigOut :=
  match get_arg arg_text with
  | (none, rest) => ⟨-1, g, w, rest⟩
  | (some endpoint, rest) =>
    match zsock_new_req h w endpoint with
    | (none, w1) => ⟨-1, g, w1, rest⟩
    | (some tmp_ptr, w1) => ⟨0, { g with sock := tmp_ptr }, zsock_destroy w1 g.sock, rest⟩

/-- The function spi_config. -/
def spi_config (h : Host) (g : spi) (w : World) (param : String)
    (arg_text : List String) : ConfigOut :=
  if strcasecmp param "rx" = 0 then
    let r := config_addr h g.rx_addr arg_text
    ⟨r.1, { g with rx_addr := r.2.1 }, w, r.2.2⟩
  else if strcasecmp param "tx" = 0 then
    let r := config_addr h g.tx_addr arg_text
    ⟨r.1, { g with tx_addr := r.2.1 }, w, r.2.2⟩
  else if strcasecmp param "irq_bit" = 0 then
    let r := config_irq h g.interrupt_bit arg_text
    ⟨r.1, { g with interrupt_bit := r.2.1 }, w, r.2.2⟩
  else if strcasecmp param "endpoint" = 0 then
    config_endpoint h g w arg_text
  else ⟨-1, g, w, arg_text⟩

/-- The function spi_write_b. -/
def spi_write_b (g : spi) (w : World) (addr : address_t) (data : uint8_t) : WriteOut :=
  if addr = g.tx_addr then
    let w1 := zsock_send w g.sock data
    let irq := shl1 g.interrupt_bit % 256
    ⟨1, { g with last_op := WRITE }, simio_sfr_modify w1 irq irq⟩
  else ⟨1, g, w⟩

/-- The function spi_read_b; data is the content of the output byte before the
call. -/
def spi_read_b (g : spi) (w : World) (addr : address_t) (data : uint8_t) : ReadOut :=
  if addr = g.rx_addr then
    if WRITE = g.last_op then
      let r := zsock_recv w g.sock
      ⟨0, r.1, { g with rx_reg := r.1, last_op := READ }, r.2⟩
    else ⟨0, g.rx_reg, { g with last_op := READ }, w⟩
  else ⟨1, data, g, w⟩

/-- One call of the bus interface; a read names the content of its output byte
before the call. -/
inductive BusOp where
  | write_b (addr : address_t) (data : uint8_t)
  | read_b (addr : address_t) (data : uint8_t)
  | reset
deriving DecidableEq, Repr

/-- Device and world after one bus call. -/
def bus_step (st : spi × World) : BusOp → spi × World
  | BusOp.write_b addr data => ((spi_write_b st.1 st.2 addr data).dev,
                                (spi_write_b st.1 st.2 addr data).world)
  | BusOp.read_b addr data => ((spi_read_b st.1 st.2 addr data).dev,
                               (spi_read_b st.1 st.2 addr data).world)
  | BusOp.reset => spi_reset st.1 st.2

/-- Device and world after a sequence of bus calls. -/
def bus_run (ops : List BusOp) (st : spi × World) : spi × World :=
  ops.foldl bus_step st

/-- Events issued on the transport between an earlier world and a later one. -/
def issued (w0 w1 : World) : List Event :=
  w1.trace.drop w0.trace.length

/-- Number of sends in a piece of traffic. -/
def sends : List Event → Nat
  | [] => 0
  | Event.send _ _ :: evs => sends evs + 1
  | _ :: evs => sends evs

/-- Number of receives in a piece of traffic. -/
def recvs : List Event → Nat
  | [] => 0
  | Event.recv _ _ :: evs => recvs evs + 1
  | _ :: evs => recvs evs

/-- A host whose evaluator reads decimal numerals and that can open every endpoint
except the one named bad://uri. -/
def host0 : Host where
  expr_eval := fun text =>
    if text.data ≠ [] ∧ text.data.all Char.isDigit = true then
      expr_result.ok (text.data.foldl (fun n c => 10 * n + (c.toNat - 48)) 0)
    else expr_result.fail none
  can_open := fun endpoint => endpoint != "bad://uri"

/-- A world with an empty register and no traffic whose peer answers 0x5A to every
request. -/
def world0 : World where
  IFG2 := 0
  IFG2_lt := by decide
  trace := []
  peer := fun _ => 0x5A
  next_id := 0

/-- The socket spi_create opens in world0. -/
def sock0 : zsock_t := ⟨0, "ipc:///tmp/simio_UCB0.sock"⟩

/-- The device spi_create returns in world0. -/
def dev0 : spi :=
  { interrupt_bit := 2, rx_addr := 0x006E, tx_addr := 0x006F,
    rx_reg := 0x00, last_op := 0, sock := sock0 }

/-- The world after spi_create in world0. -/
def world1 : World where
  IFG2 := 0
  IFG2_lt := by decide
  trace := [Event.new_req sock0]
  peer := fun _ => 0x5A
  next_id := 1

/-- The world after spi_create in which the register has every bit set and the
peer's replies differ: the reply to request k is 0x50 + k. -/
def world2 : World where
  IFG2 := 0xFF
  IFG2_lt := by decide
  trace := [Event.new_req sock0]
  peer := fun k => 0x50 + k
  next_id := 1

/-- The ordering the request-reply discipline asks of the sends: no send is issued
while an earlier send still waits for its receive. The flag tells whether a send
is waiting when the traffic starts. -/
def sends_answered (owed : Bool) : List Event → Bool
  | [] => true
  | Event.send _ _ :: evs => !owed && sends_answered true evs
  | Event.recv _ _ :: evs => sends_answered false evs
  | _ :: evs => sends_answered owed evs

/-- The ordering of the receives: every receive is issued while a send waits for
it, so no receive comes before the first send and no two receives come without a
send between them. The flag tells whether a send is waiting when the traffic
starts. -/
def recvs_gated (owed : Bool) : List Event → Bool
  | [] => true
  | Event.send _ _ :: evs => recvs_gated true evs
  | Event.recv _ _ :: evs => owed && recvs_gated false evs
  | _ :: evs => recvs_gated owed evs

/-- Whether a send waits for its receive after a piece of traffic. -/
def owed_after (owed : Bool) : List Event → Bool
  | [] => owed
  | Event.send _ _ :: evs => owed_after true evs
  | Event.recv _ _ :: evs => owed_after false evs
  | _ :: evs => owed_after owed evs

/-- The invariant behind the gate: the traffic issued since an earlier world w0 has
its receives gated, and a device whose last operation is WRITE has a send waiting. -/
def gate_inv (w0 : World) (st : spi × World) : Prop :=
  ∃ evs, st.2.trace = w0.trace ++ evs ∧ recvs_gated false evs = true
    ∧ (st.1.last_op = WRITE → owed_after false evs = true)

/-- The printf conversion with a zero flag, a minimum width and x: the lower-case
hexadecimal digits of the value, padded on the left with zeros up to the width. -/
def hex (width n : Nat) : String :=
  String.mk (List.replicate (width - (Nat.toDigits 16 n).length) '0' ++ Nat.toDigits 16 n)

/-- The character spi_info prints for the last operation: the C conditional
g->last_op ? 'R' : 'W'. -/
def last_op_char (g : spi) : Char :=
  if g.last_op ≠ 0 then 'R' else 'W'

/-- The function spi_info: its return value and the text of its printc calls, one
entry per call. -/
def spi_info (g : spi) : Int × List String :=
  (0,
   ["Rx address:          0x" ++ hex 4 g.rx_addr ++ "\n",
    "Tx address:          0x" ++ hex 4 g.tx_addr ++ "\n",
    "RxIFG mask :         0x" ++ hex 2 (shl1 g.interrupt_bit) ++ "\n",
    "0MQ data endpoint:   " ++ g.sock.endpoint ++ "\n",
    "last op:             " ++ String.singleton (last_op_char g) ++ "\n",
    "Rx value:            0x" ++ hex 2 g.rx_reg ++ "\n",
    "\n"])

/-- One call on the device: a call of the bus interface or a configuration
command. -/
inductive DevOp where
  | bus (op : BusOp)
  | config (param : String) (arg_text : List String)
deriving DecidableEq, Repr

/-- Device and world after one call on the device. -/
def dev_step (h : Host) (st : spi × World) : DevOp → spi × World
  | DevOp.bus op => bus_step st op
  | DevOp.config param arg_text => ((spi_config h st.1 st.2 param arg_text).dev,
                                    (spi_config h st.1 st.2 param arg_text).world)

/-- Device and world after a sequence of calls on the device. -/
def dev_run (h : Host) (ops : List DevOp) (st : spi × World) : spi × World :=
  ops.foldl (dev_step h) st

/-- The invariant of the counts: since an earlier world w0 no more receives than
sends were issued, and strictly fewer when the last operation is WRITE. -/
def count_inv (w0 : World) (st : spi × World) : Prop :=
  ∃ evs, st.2.trace = w0.trace ++ evs ∧ recvs evs ≤ sends evs
    ∧ (st.1.last_op = WRITE → recvs evs < sends evs)

/-! ## Helper facts -/

theorem issued_of_append (w0 w1 : World) (evs : List Event)
    (h : w1.trace = w0.trace ++ evs) : issued w0 w1 = evs := by
  simp [issued, h]

theorem issued_self (w : World) : issued w w = [] := by
  simp [issued]

theorem testBit_sfr_modify (reg mask bits i : Nat) :
    (sfr_modify reg mask bits).testBit i
      = if mask.testBit i then bits.testBit i else reg.testBit i := by
  simp only [sfr_modify, Nat.testBit_or, Nat.testBit_xor, Nat.testBit_and]
  cases reg.testBit i <;> cases mask.testBit i <;> cases bits.testBit i <;> rfl

theorem testBit_one_shiftLeft (n i : Nat) :
    (1 <<< n).testBit i = decide (n = i) := by
  rw [Nat.one_shiftLeft, Nat.testBit_two_pow]

theorem sfr_modify_self (reg mask : Nat) : sfr_modify reg mask mask = reg ||| mask := by
  apply Nat.eq_of_testBit_eq
  intro i
  rw [testBit_sfr_modify, Nat.testBit_or]
  cases reg.testBit i <;> cases mask.testBit i <;> rfl

theorem bus_step_interrupt_bit (st : spi × World) (op : BusOp) :
    (bus_step st op).1.interrupt_bit = st.1.interrupt_bit := by
  cases op with
  | write_b addr data => simp only [bus_step, spi_write_b]; split <;> rfl
  | read_b addr data =>
    simp only [bus_step, spi_read_b]
    split
    · split <;> rfl
    · rfl
  | reset => rfl

theorem bus_run_interrupt_bit (ops : List BusOp) (st : spi × World) :
    (bus_run ops st).1.interrupt_bit = st.1.interrupt_bit := by
  induction ops generalizing st with
  | nil => rfl
  | cons op ops ih =>
    have := ih (bus_step st op)
    rw [bus_step_interrupt_bit] at this
    simpa [bus_run] using this

theorem strcasecmp_irq_bit :
    strcasecmp "irq_bit" "rx" ≠ 0 ∧ strcasecmp "irq_bit" "tx" ≠ 0
    ∧ strcasecmp "irq_bit" "irq_bit" = 0 := by decide

theorem strcasecmp_rx : strcasecmp "rx" "rx" = 0 := by decide

theorem strcasecmp_tx : strcasecmp "tx" "rx" ≠ 0 ∧ strcasecmp "tx" "tx" = 0 := by decide

theorem strcasecmp_endpoint :
    strcasecmp "endpoint" "rx" ≠ 0 ∧ strcasecmp "endpoint" "tx" ≠ 0
    ∧ strcasecmp "endpoint" "irq_bit" ≠ 0 ∧ strcasecmp "endpoint" "endpoint" = 0 := by
  decide

theorem testBit_irq_mask (n i : Nat) :
    ((1 <<< n) % 256).testBit i = (decide (i < 8) && decide (n = i)) := by
  have h : (256 : Nat) = 2 ^ 8 := by norm_num
  rw [h, Nat.testBit_mod_two_pow, testBit_one_shiftLeft]

theorem shl1_of_lt (n : Nat) (hn : n < 32) : shl1 n = 1 <<< n := by
  unfold shl1
  rw [Nat.mod_eq_of_lt hn]

theorem testBit_shl1_byte (n i : Nat) (hn : n < 32) :
    (shl1 n % 256).testBit i = (decide (i < 8) && decide (n = i)) := by
  rw [shl1_of_lt n hn, testBit_irq_mask]

theorem testBit_of_byte (x i : Nat) (hx : x < 256) (hi : 8 ≤ i) :
    x.testBit i = false := by
  apply Nat.testBit_lt_two_pow
  calc x < 2 ^ 8 := by simpa using hx
    _ ≤ 2 ^ i := Nat.pow_le_pow_right (by norm_num) hi

/-! ## C1: round trip -/

/-- C1. For every device state, world and byte b, writing b at the device's tx
address and then reading at its rx address appends to the transport traffic exactly
the send of b followed by one receive, both on the device's socket; the read returns
0 and its output byte is the byte the peer supplied on that receive; afterwards
rx_reg holds that byte and last_op is READ. -/
theorem C1_round_trip (g : spi) (w : World) (b d : uint8_t) :
    (spi_read_b (spi_write_b g w g.tx_addr b).dev (spi_write_b g w g.tx_addr b).world
        (spi_write_b g w g.tx_addr b).dev.rx_addr d).world.trace
      = w.trace ++ [Event.send g.sock b, Event.recv g.sock (w.peer 0)]
    ∧ sends (issued w (spi_read_b (spi_write_b g w g.tx_addr b).dev
        (spi_write_b g w g.tx_addr b).world
        (spi_write_b g w g.tx_addr b).dev.rx_addr d).world) = 1
    ∧ recvs (issued w (spi_read_b (spi_write_b g w g.tx_addr b).dev
        (spi_write_b g w g.tx_addr b).world
        (spi_write_b g w g.tx_addr b).dev.rx_addr d).world) = 1
    ∧ (spi_read_b (spi_write_b g w g.tx_addr b).dev (spi_write_b g w g.tx_addr b).world
        (spi_write_b g w g.tx_addr b).dev.rx_addr d).ret = 0
    ∧ (spi_read_b (spi_write_b g w g.tx_addr b).dev (spi_write_b g w g.tx_addr b).world
        (spi_write_b g w g.tx_addr b).dev.rx_addr d).data = w.peer 0
    ∧ (spi_read_b (spi_write_b g w g.tx_addr b).dev (spi_write_b g w g.tx_addr b).world
        (spi_write_b g w g.tx_addr b).dev.rx_addr d).dev.rx_reg = w.peer 0
    ∧ (spi_read_b (spi_write_b g w g.tx_addr b).dev (spi_write_b g w g.tx_addr b).world
        (spi_write_b g w g.tx_addr b).dev.rx_addr d).dev.last_op = READ := by
  have ht : (spi_read_b (spi_write_b g w g.tx_addr b).dev
        (spi_write_b g w g.tx_addr b).world
        (spi_write_b g w g.tx_addr b).dev.rx_addr d).world.trace
      = w.trace ++ [Event.send g.sock b, Event.recv g.sock (w.peer 0)] := by
    simp [spi_write_b, spi_read_b, zsock_send, zsock_recv, simio_sfr_modify]
  refine ⟨ht, ?_, ?_, ?_, ?_, ?_, ?_⟩
  · rw [issued_of_append _ _ _ ht]; rfl
  · rw [issued_of_append _ _ _ ht]; rfl
  · simp [spi_write_b, spi_read_b]
  · simp [spi_write_b, spi_read_b, zsock_send, zsock_recv, simio_sfr_modify]
  · simp [spi_write_b, spi_read_b, zsock_send, zsock_recv, simio_sfr_modify]
  · simp [spi_write_b, spi_read_b]

/-! ## C2: cached re-read -/

/-- C2. For every device state and world, two consecutive reads at the device's rx
address both return 0 and deliver the same byte; the second read leaves the world
as the first left it (it issues nothing on the transport), and the two reads
together issue at most one receive and no send. -/
theorem C2_cached_reread (g : spi) (w : World) (d1 d2 : uint8_t) :
    (spi_read_b g w g.rx_addr d1).ret = 0
    ∧ (spi_read_b (spi_read_b g w g.rx_addr d1).dev (spi_read_b g w g.rx_addr d1).world
        (spi_read_b g w g.rx_addr d1).dev.rx_addr d2).ret = 0
    ∧ (spi_read_b (spi_read_b g w g.rx_addr d1).dev (spi_read_b g w g.rx_addr d1).world
        (spi_read_b g w g.rx_addr d1).dev.rx_addr d2).data
        = (spi_read_b g w g.rx_addr d1).data
    ∧ (spi_read_b (spi_read_b g w g.rx_addr d1).dev (spi_read_b g w g.rx_addr d1).world
        (spi_read_b g w g.rx_addr d1).dev.rx_addr d2).world.trace
        = (spi_read_b g w g.rx_addr d1).world.trace
    ∧ recvs (issued (spi_read_b g w g.rx_addr d1).world
        (spi_read_b (spi_read_b g w g.rx_addr d1).dev (spi_read_b g w g.rx_addr d1).world
          (spi_read_b g w g.rx_addr d1).dev.rx_addr d2).world) = 0
    ∧ recvs (issued w (spi_read_b (spi_read_b g w g.rx_addr d1).dev
        (spi_read_b g w g.rx_addr d1).world
        (spi_read_b g w g.rx_addr d1).dev.rx_addr d2).world) ≤ 1
    ∧ sends (issued w (spi_read_b (spi_read_b g w g.rx_addr d1).dev
        (spi_read_b g w g.rx_addr d1).world
        (spi_read_b g w g.rx_addr d1).dev.rx_addr d2).world) = 0 := by
  by_cases hw : WRITE = g.last_op
  · have e1 : spi_read_b g w g.rx_addr d1
        = ⟨0, w.peer 0, { g with rx_reg := w.peer 0, last_op := READ },
            (zsock_recv w g.sock).2⟩ := by
      simp [spi_read_b, hw, zsock_recv]
    have e2 : spi_read_b { g with rx_reg := w.peer 0, last_op := READ }
        (zsock_recv w g.sock).2 g.rx_addr d2
        = ⟨0, w.peer 0, { g with rx_reg := w.peer 0, last_op := READ },
            (zsock_recv w g.sock).2⟩ := by
      simp [spi_read_b, READ, WRITE]
    have ht : (zsock_recv w g.sock).2.trace
        = w.trace ++ [Event.recv g.sock (w.peer 0)] := rfl
    simp only [e1, e2, issued_self, issued_of_append _ _ _ ht]
    simp [recvs, sends]
  · have e1 : spi_read_b g w g.rx_addr d1
        = ⟨0, g.rx_reg, { g with last_op := READ }, w⟩ := by
      simp [spi_read_b, hw]
    have e2 : spi_read_b { g with last_op := READ } w g.rx_addr d2
        = ⟨0, g.rx_reg, { g with last_op := READ }, w⟩ := by
      simp [spi_read_b, READ, WRITE]
    simp only [e1, e2, issued_self]
    simp [recvs, sends]

/-! ## C3: ordering of sends and receives -/

theorem recvs_gated_append (o : Bool) (a b : List Event) :
    recvs_gated o (a ++ b) = (recvs_gated o a && recvs_gated (owed_after o a) b) := by
  induction a generalizing o with
  | nil => simp [recvs_gated, owed_after]
  | cons e a ih =>
    cases e <;> simp [recvs_gated, owed_after, ih, Bool.and_assoc]

theorem owed_after_append (o : Bool) (a b : List Event) :
    owed_after o (a ++ b) = owed_after (owed_after o a) b := by
  induction a generalizing o with
  | nil => simp [owed_after]
  | cons e a ih =>
    cases e <;> simp [owed_after, ih]

theorem spi_read_b_last_op (g : spi) (w : World) (d : uint8_t) :
    (spi_read_b g w g.rx_addr d).dev.last_op = READ := by
  by_cases hw : WRITE = g.last_op <;> simp [spi_read_b, hw]

theorem READ_ne_WRITE : READ ≠ WRITE := by decide

theorem gate_inv_step (w0 : World) (st : spi × World) (op : BusOp)
    (hinv : gate_inv w0 st) : gate_inv w0 (bus_step st op) := by
  obtain ⟨g, w⟩ := st
  obtain ⟨evs, ht, hg, ho⟩ := hinv
  simp only at ht ho
  cases op with
  | write_b addr data =>
    by_cases ha : addr = g.tx_addr
    · refine ⟨evs ++ [Event.send g.sock data], ?_, ?_, ?_⟩
      · simp [bus_step, spi_write_b, ha, zsock_send, simio_sfr_modify, ht]
      · simp [recvs_gated_append, hg, recvs_gated]
      · intro _; simp [owed_after_append, owed_after]
    · refine ⟨evs, ?_, hg, ?_⟩
      · simp [bus_step, spi_write_b, ha, ht]
      · simpa [bus_step, spi_write_b, ha] using ho
  | read_b addr data =>
    by_cases ha : addr = g.rx_addr
    · by_cases hw : WRITE = g.last_op
      · refine ⟨evs ++ [Event.recv g.sock (w.peer 0)], ?_, ?_, ?_⟩
        · simp [bus_step, spi_read_b, ha, hw, zsock_recv, ht]
        · simp [recvs_gated_append, hg, recvs_gated, ho hw.symm]
        · intro hl
          simp only [bus_step, ha, spi_read_b_last_op] at hl
          exact absurd hl READ_ne_WRITE
      · refine ⟨evs, ?_, hg, ?_⟩
        · simp [bus_step, spi_read_b, ha, hw, ht]
        · intro hl
          simp only [bus_step, ha, spi_read_b_last_op] at hl
          exact absurd hl READ_ne_WRITE
    · refine ⟨evs, ?_, hg, ?_⟩
      · simp [bus_step, spi_read_b, ha, ht]
      · simpa [bus_step, spi_read_b, ha] using ho
  | reset =>
    refine ⟨evs, ?_, hg, ?_⟩
    · simp [bus_step, spi_reset, simio_sfr_modify, ht]
    · simp [bus_step, spi_reset, READ, WRITE]

theorem gate_inv_run (w0 : World) (ops : List BusOp) (st : spi × World)
    (hinv : gate_inv w0 st) : gate_inv w0 (bus_run ops st) := by
  induction ops generalizing st with
  | nil => simpa [bus_run] using hinv
  | cons op ops ih =>
    have := ih (bus_step st op) (gate_inv_step w0 st op hinv)
    simpa [bus_run] using this

theorem spi_create_last_op (h : Host) (w : World) (args : List String) (g : spi)
    (w1 : World) (hc : spi_create h w args = some (g, w1)) : g.last_op = 0 := by
  unfold spi_create at hc
  split at hc
  · simp only [Option.some.injEq, Prod.mk.injEq] at hc
    rw [← hc.1]
  · simp at hc

/-- C3, as the code has it. From a freshly created device, after every sequence of
bus calls (writes, reads and resets at arbitrary addresses), the traffic issued since
creation has every receive gated behind a waiting send: no receive is issued before
the first send and no two receives are issued without a send between them. -/
theorem C3_receives_gated (h : Host) (w : World) (args : List String) (g : spi)
    (w1 : World) (hc : spi_create h w args = some (g, w1)) (ops : List BusOp) :
    recvs_gated false (issued w1 (bus_run ops (g, w1)).2) = true := by
  have h0 : gate_inv w1 (g, w1) := by
    refine ⟨[], by simp, rfl, ?_⟩
    intro hl
    have := spi_create_last_op h w args g w1 hc
    simp [WRITE] at hl
    omega
  obtain ⟨evs, ht, hg, _⟩ := gate_inv_run w1 ops (g, w1) h0
  rw [issued_of_append _ _ _ ht]
  exact hg

/-- Witness for C3_receives_gated: the default device, one write and two reads. -/
theorem C3_receives_gated_witness :
    spi_create host0 world0 [] = some (dev0, world1)
    ∧ recvs_gated false (issued world1 (bus_run
        [BusOp.write_b 0x6F 0xAB, BusOp.read_b 0x6E 0, BusOp.read_b 0x6E 0]
        (dev0, world1)).2) = true :=
  ⟨rfl, C3_receives_gated host0 world0 [] dev0 world1 rfl _⟩

/-- C3, as stated, fails: on the freshly created default device two writes at the
tx address issue two sends with no receive between them. -/
theorem C3_two_sends_counterexample :
    spi_create host0 world0 [] = some (dev0, world1)
    ∧ issued world1 (bus_run [BusOp.write_b 0x6F 1, BusOp.write_b 0x6F 2]
        (dev0, world1)).2 = [Event.send sock0 1, Event.send sock0 2]
    ∧ sends_answered false (issued world1 (bus_run
        [BusOp.write_b 0x6F 1, BusOp.write_b 0x6F 2] (dev0, world1)).2) = false := by
  refine ⟨rfl, ?_, ?_⟩ <;> decide

/-! ## C4: reset postcondition -/

/-- C4. For every device state and every value of the shared register, after
spi_reset last_op is READ, rx_reg is 0, and the bit of the shared register indexed
by the device's interrupt_bit is clear. -/
theorem C4_reset_postcondition (g : spi) (w : World) :
    (spi_reset g w).1.last_op = READ
    ∧ (spi_reset g w).1.rx_reg = 0
    ∧ (spi_reset g w).2.IFG2.testBit g.interrupt_bit = false := by
  refine ⟨rfl, rfl, ?_⟩
  by_cases h8 : g.interrupt_bit < 8
  · simp only [spi_reset, simio_sfr_modify]
    rw [testBit_sfr_modify, testBit_shl1_byte _ _ (Nat.lt_of_lt_of_le h8 (by norm_num))]
    simp [h8]
  · exact testBit_of_byte _ _ (spi_reset g w).2.IFG2_lt (Nat.le_of_not_lt h8)

/-! ## C5: unowned addresses -/

/-- C5. For every device state and world, a write at an address other than the tx
address returns the nonzero code 1 and leaves device and world (register, traffic,
peer) as they were; a read at an address other than the rx address returns the
nonzero code 1, leaves device and world as they were and leaves the output byte
with the content it had. -/
theorem C5_unowned_addresses (g : spi) (w : World) (a1 a2 : address_t)
    (data d : uint8_t) (h1 : a1 ≠ g.tx_addr) (h2 : a2 ≠ g.rx_addr) :
    spi_write_b g w a1 data = ⟨1, g, w⟩
    ∧ (spi_write_b g w a1 data).ret ≠ 0
    ∧ spi_read_b g w a2 d = ⟨1, d, g, w⟩
    ∧ (spi_read_b g w a2 d).ret ≠ 0
    ∧ issued w (spi_write_b g w a1 data).world = []
    ∧ issued w (spi_read_b g w a2 d).world = [] := by
  have e1 : spi_write_b g w a1 data = ⟨1, g, w⟩ := by simp [spi_write_b, h1]
  have e2 : spi_read_b g w a2 d = ⟨1, d, g, w⟩ := by simp [spi_read_b, h2]
  refine ⟨e1, ?_, e2, ?_, ?_, ?_⟩
  · rw [e1]; exact one_ne_zero
  · rw [e2]; exact one_ne_zero
  · rw [e1]; exact issued_self w
  · rw [e2]; exact issued_self w

/-- Witness for C5_unowned_addresses: the default device touched at 0x0070. -/
theorem C5_unowned_addresses_witness :
    (0x70 : Nat) ≠ dev0.tx_addr ∧ (0x70 : Nat) ≠ dev0.rx_addr
    ∧ spi_write_b dev0 world1 0x70 0xAB = ⟨1, dev0, world1⟩
    ∧ spi_read_b dev0 world1 0x70 0x11 = ⟨1, 0x11, dev0, world1⟩ :=
  ⟨by decide, by decide,
   (C5_unowned_addresses dev0 world1 0x70 0x70 0xAB 0x11 (by decide) (by decide)).1,
   (C5_unowned_addresses dev0 world1 0x70 0x70 0xAB 0x11 (by decide) (by decide)).2.2.1⟩

/-! ## C6: the interrupt bit follows the configuration -/

/-- C6, as the code has it. If the argument of irq_bit evaluates to n with n at
most 7, spi_config succeeds and stores n, and after any further bus calls a write at
the tx address sets bit n of the shared register (the register becomes its old value
or-ed with 1 << n) and leaves every other bit, the previously configured one
included, as it was. -/
theorem C6_irq_bit_in_range (h : Host) (g : spi) (w : World) (text : String)
    (rest : List String) (n : Nat) (he : h.expr_eval text = expr_result.ok n)
    (hn : n < 8) (ops : List BusOp) (data : uint8_t) :
    let c := spi_config h g w "irq_bit" (text :: rest)
    let st := bus_run ops (c.dev, c.world)
    let wr := spi_write_b st.1 st.2 st.1.tx_addr data
    c.ret = 0 ∧ c.dev.interrupt_bit = n
    ∧ wr.world.IFG2 = st.2.IFG2 ||| (1 <<< n)
    ∧ wr.world.IFG2.testBit n = true
    ∧ ∀ i, i ≠ n → wr.world.IFG2.testBit i = st.2.IFG2.testBit i := by
  intro c st wr
  have hc : c = ⟨0, { g with interrupt_bit := n % 256 }, w, rest⟩ := by
    simp [c, spi_config, strcasecmp_irq_bit, config_irq, get_arg, he]
  have hmod : n % 256 = n := Nat.mod_eq_of_lt (by omega)
  have hbit : st.1.interrupt_bit = n := by
    show (bus_run ops (c.dev, c.world)).1.interrupt_bit = n
    rw [bus_run_interrupt_bit, hc]
    exact hmod
  have hmask : (1 <<< n) % 256 = 1 <<< n := by
    apply Nat.mod_eq_of_lt
    rw [Nat.one_shiftLeft]
    calc 2 ^ n < 2 ^ 8 := Nat.pow_lt_pow_right (by norm_num) hn
      _ = 256 := by norm_num
  have hshl : shl1 n % 256 % 256 = 1 <<< n := by
    rw [Nat.mod_mod, shl1_of_lt n (by omega), hmask]
  have hreg : wr.world.IFG2 = st.2.IFG2 ||| (1 <<< n) := by
    show (spi_write_b st.1 st.2 st.1.tx_addr data).world.IFG2 = st.2.IFG2 ||| (1 <<< n)
    simp only [spi_write_b, if_true, simio_sfr_modify, zsock_send, hbit, hshl,
      sfr_modify_self]
  have hret : c.ret = 0 := by rw [hc]
  have hstored : c.dev.interrupt_bit = n := by rw [hc]; exact hmod
  refine ⟨hret, hstored, hreg, ?_, ?_⟩
  · rw [hreg, Nat.testBit_or, testBit_one_shiftLeft]; simp
  · intro i hi
    rw [hreg, Nat.testBit_or, testBit_one_shiftLeft]
    simp [Ne.symm hi]

/-- Witness for C6_irq_bit_in_range: irq_bit 5 on the default device, then a write
to 0x006F: the register goes from 0 to 0x20, so bit 0x04 stays clear. -/
theorem C6_irq_bit_in_range_witness :
    host0.expr_eval "5" = expr_result.ok 5
    ∧ (spi_config host0 dev0 world1 "irq_bit" ["5"]).ret = 0
    ∧ (spi_write_b (spi_config host0 dev0 world1 "irq_bit" ["5"]).dev
        (spi_config host0 dev0 world1 "irq_bit" ["5"]).world 0x6F 0xAB).world.IFG2
        = 0 ||| (1 <<< 5)
    ∧ (0 ||| (1 <<< 5) : Nat) = 0x20 :=
  ⟨by decide,
   (C6_irq_bit_in_range host0 dev0 world1 "5" [] 5 (by decide) (by decide) [] 0xAB).1,
   (C6_irq_bit_in_range host0 dev0 world1 "5" [] 5 (by decide) (by decide) [] 0xAB).2.2.1,
   by decide⟩

/-- C6, as stated, fails: on the default device irq_bit 8 is accepted and stored,
and the following write at the tx address sends its byte but sets no bit of the
shared register, bit 8 included. -/
theorem C6_irq_bit_8_counterexample :
    host0.expr_eval "8" = expr_result.ok 8
    ∧ (spi_config host0 dev0 world1 "irq_bit" ["8"]).ret = 0
    ∧ (spi_config host0 dev0 world1 "irq_bit" ["8"]).dev.interrupt_bit = 8
    ∧ world1.IFG2 = 0
    ∧ (spi_write_b (spi_config host0 dev0 world1 "irq_bit" ["8"]).dev
        (spi_config host0 dev0 world1 "irq_bit" ["8"]).world 0x6F 0xAB).world.IFG2 = 0
    ∧ (spi_write_b (spi_config host0 dev0 world1 "irq_bit" ["8"]).dev
        (spi_config host0 dev0 world1 "irq_bit" ["8"]).world 0x6F 0xAB).world.IFG2.testBit 8
        = false
    ∧ (spi_write_b (spi_config host0 dev0 world1 "irq_bit" ["8"]).dev
        (spi_config host0 dev0 world1 "irq_bit" ["8"]).world 0x6F 0xAB).world.trace
        = [Event.new_req sock0, Event.send sock0 0xAB] := by
  refine ⟨?_, ?_, ?_, ?_, ?_, ?_, ?_⟩ <;> decide

/-! ## C7: failed numeric configuration changes nothing -/

/-- C7. For each of the parameters rx, tx and irq_bit: when no argument is left, or
when the evaluator fails on the argument without storing anything through its
output, spi_config returns -1 and the device and the world (shared register,
traffic, sockets) are exactly as before the call. -/
theorem C7_numeric_failure_atomic (h : Host) (g : spi) (w : World) (param : String)
    (args : List String)
    (hp : param = "rx" ∨ param = "tx" ∨ param = "irq_bit")
    (hf : args = [] ∨ ∃ text rest, args = text :: rest
            ∧ h.expr_eval text = expr_result.fail none) :
    (spi_config h g w param args).ret = -1
    ∧ (spi_config h g w param args).dev = g
    ∧ (spi_config h g w param args).world = w := by
  rcases hf with hf | ⟨text, rest, hf, he⟩
  · subst hf
    rcases hp with hp | hp | hp <;> subst hp
    · simp [spi_config, strcasecmp_rx, config_addr, get_arg]
    · simp [spi_config, strcasecmp_tx, config_addr, get_arg]
    · simp [spi_config, strcasecmp_irq_bit, config_irq, get_arg]
  · subst hf
    rcases hp with hp | hp | hp <;> subst hp
    · simp [spi_config, strcasecmp_rx, config_addr, get_arg, he]
    · simp [spi_config, strcasecmp_tx, config_addr, get_arg, he]
    · simp [spi_config, strcasecmp_irq_bit, config_irq, get_arg, he]

/-- Witness for C7_numeric_failure_atomic: rx with an argument that is no number. -/
theorem C7_numeric_failure_atomic_witness :
    host0.expr_eval "x" = expr_result.fail none
    ∧ (spi_config host0 dev0 world1 "rx" ["x"]).ret = -1
    ∧ (spi_config host0 dev0 world1 "rx" ["x"]).dev = dev0
    ∧ (spi_config host0 dev0 world1 "rx" ["x"]).world = world1 :=
  ⟨by decide,
   C7_numeric_failure_atomic host0 dev0 world1 "rx" ["x"] (Or.inl rfl)
     (Or.inr ⟨"x", [], rfl, by decide⟩)⟩

/-! ## C8: endpoint reconfiguration -/

/-- C8. With parameter endpoint, spi_config returns -1 and leaves device and world
as they were when no argument is left or when the endpoint cannot be opened, and a
following write and read then run on the original socket; when the endpoint opens,
the call returns 0, the traffic gains the opening of the new socket followed by the
release of the old one, the new socket is the device's socket, and every other
field and the shared register are as before. -/
theorem C8_endpoint_open_before_release (h : Host) (g : spi) (w : World)
    (endpoint : String) (rest : List String) (b d : uint8_t) :
    spi_config h g w "endpoint" [] = ⟨-1, g, w, []⟩
    ∧ (h.can_open endpoint = false →
        spi_config h g w "endpoint" (endpoint :: rest) = ⟨-1, g, w, rest⟩
        ∧ (spi_read_b
            (spi_write_b (spi_config h g w "endpoint" (endpoint :: rest)).dev
              (spi_config h g w "endpoint" (endpoint :: rest)).world g.tx_addr b).dev
            (spi_write_b (spi_config h g w "endpoint" (endpoint :: rest)).dev
              (spi_config h g w "endpoint" (endpoint :: rest)).world g.tx_addr b).world
            g.rx_addr d).world.trace
          = w.trace ++ [Event.send g.sock b, Event.recv g.sock (w.peer 0)])
    ∧ (h.can_open endpoint = true →
        (spi_config h g w "endpoint" (endpoint :: rest)).ret = 0
        ∧ (spi_config h g w "endpoint" (endpoint :: rest)).dev
            = { g with sock := ⟨w.next_id, endpoint⟩ }
        ∧ (spi_config h g w "endpoint" (endpoint :: rest)).world.trace
            = w.trace ++ [Event.new_req ⟨w.next_id, endpoint⟩, Event.destroy g.sock]
        ∧ (spi_config h g w "endpoint" (endpoint :: rest)).world.IFG2 = w.IFG2
        ∧ (spi_config h g w "endpoint" (endpoint :: rest)).arg_text = rest) := by
  refine ⟨?_, ?_, ?_⟩
  · simp [spi_config, strcasecmp_endpoint, config_endpoint, get_arg]
  · intro hk
    have e : spi_config h g w "endpoint" (endpoint :: rest) = ⟨-1, g, w, rest⟩ := by
      simp [spi_config, strcasecmp_endpoint, config_endpoint, get_arg, zsock_new_req, hk]
    refine ⟨e, ?_⟩
    rw [e]
    simp [spi_write_b, spi_read_b, zsock_send, zsock_recv, simio_sfr_modify]
  · intro hk
    simp [spi_config, strcasecmp_endpoint, config_endpoint, get_arg, zsock_new_req, hk,
      zsock_destroy]

/-- Witness for C8_endpoint_open_before_release: on the default device the endpoint
bad://uri is refused and tcp://peer:5555 is accepted. -/
theorem C8_endpoint_open_before_release_witness :
    host0.can_open "bad://uri" = false
    ∧ spi_config host0 dev0 world1 "endpoint" ["bad://uri"] = ⟨-1, dev0, world1, []⟩
    ∧ host0.can_open "tcp://peer:5555" = true
    ∧ (spi_config host0 dev0 world1 "endpoint" ["tcp://peer:5555"]).ret = 0 :=
  ⟨by decide,
   ((C8_endpoint_open_before_release host0 dev0 world1 "bad://uri" [] 0xAB 0).2.1
      (by decide)).1,
   by decide,
   ((C8_endpoint_open_before_release host0 dev0 world1 "tcp://peer:5555" [] 0xAB 0).2.2
      (by decide)).1⟩

/-! ## C9: return codes -/

/-- C9. For every device state, world, address and byte, spi_write_b returns 1
(nonzero), whether or not the address is the tx address, and spi_read_b returns 0
exactly when the address is the rx address (and 1 otherwise). -/
theorem C9_write_never_claims (g : spi) (w : World) (addr : address_t)
    (data d : uint8_t) :
    (spi_write_b g w addr data).ret = 1
    ∧ (spi_write_b g w addr data).ret ≠ 0
    ∧ (spi_write_b g w g.tx_addr data).ret = (spi_write_b g w addr data).ret
    ∧ ((spi_read_b g w addr d).ret = 0 ↔ addr = g.rx_addr)
    ∧ (addr ≠ g.rx_addr → (spi_read_b g w addr d).ret = 1) := by
  have hw : ∀ a, (spi_write_b g w a data).ret = 1 := by
    intro a
    simp only [spi_write_b]
    split <;> rfl
  refine ⟨hw addr, ?_, ?_, ?_, ?_⟩
  · rw [hw addr]; exact one_ne_zero
  · rw [hw, hw]
  · by_cases ha : addr = g.rx_addr
    · by_cases hl : WRITE = g.last_op <;> simp [spi_read_b, ha, hl]
    · simp [spi_read_b, ha]
  · intro ha
    simp [spi_read_b, ha]

/-- Witness for C9_write_never_claims: a read of the default device at 0x0070. -/
theorem C9_write_never_claims_witness :
    (spi_write_b dev0 world1 0x6F 0xAB).ret = 1
    ∧ (spi_read_b dev0 world1 0x70 0).ret = 1 :=
  ⟨(C9_write_never_claims dev0 world1 0x6F 0xAB 0).1,
   (C9_write_never_claims dev0 world1 0x70 0xAB 0).2.2.2.2 (by decide)⟩

/-! ## C10: isolation of the shared register -/

/-- C10, as the code has it. For every device state whose stored interrupt_bit is
below 32 and every value of the shared register, spi_write_b and spi_reset leave
every bit other than the one indexed by the device's interrupt_bit as it was; and
for every device state, spi_read_b and spi_config leave the whole register as it
was. -/
theorem C10_register_isolation (h : Host) (g : spi) (w : World) (addr : address_t)
    (data d : uint8_t) (param : String) (args : List String) :
    (g.interrupt_bit < 32 → ∀ i, i ≠ g.interrupt_bit →
        (spi_write_b g w addr data).world.IFG2.testBit i = w.IFG2.testBit i)
    ∧ (g.interrupt_bit < 32 → ∀ i, i ≠ g.interrupt_bit →
        (spi_reset g w).2.IFG2.testBit i = w.IFG2.testBit i)
    ∧ (spi_read_b g w addr d).world.IFG2 = w.IFG2
    ∧ (spi_config h g w param args).world.IFG2 = w.IFG2 := by
  refine ⟨?_, ?_, ?_, ?_⟩
  · intro hb i hi
    by_cases ha : addr = g.tx_addr
    · have hm : (shl1 g.interrupt_bit % 256 % 256).testBit i
          = (decide (i < 8) && decide (g.interrupt_bit = i)) := by
        rw [Nat.mod_mod, testBit_shl1_byte _ _ hb]
      simp only [spi_write_b, ha, if_true, simio_sfr_modify, zsock_send]
      rw [testBit_sfr_modify, hm]
      simp [Ne.symm hi]
    · simp [spi_write_b, ha]
  · intro hb i hi
    simp only [spi_reset, simio_sfr_modify]
    rw [testBit_sfr_modify, testBit_shl1_byte _ _ hb]
    simp [Ne.symm hi]
  · simp only [spi_read_b]
    split
    · split <;> rfl
    · rfl
  · simp only [spi_config]
    split
    · rfl
    · split
      · rfl
      · split
        · rfl
        · split
          · simp only [config_endpoint, zsock_new_req]
            cases args with
            | nil => rfl
            | cons e r =>
              simp only [get_arg]
              by_cases hk : h.can_open e = true
              · simp [hk, zsock_destroy]
              · simp [hk]
          · rfl

/-- Witness for C10_register_isolation: a write and a reset on the default device,
whose bit is 2, leave bit 0 of the register as it was. -/
theorem C10_register_isolation_witness :
    dev0.interrupt_bit < 32 ∧ (0 : Nat) ≠ dev0.interrupt_bit
    ∧ (spi_write_b dev0 world1 0x6F 0xAB).world.IFG2.testBit 0 = world1.IFG2.testBit 0
    ∧ (spi_reset dev0 world2).2.IFG2.testBit 0 = world2.IFG2.testBit 0 :=
  ⟨by decide, by decide,
   (C10_register_isolation host0 dev0 world1 0x6F 0xAB 0 "rx" []).1 (by decide) 0
     (by decide),
   (C10_register_isolation host0 dev0 world2 0x6F 0xAB 0 "rx" []).2.1 (by decide) 0
     (by decide)⟩

/-- C10, as stated, fails: irq_bit 34 is accepted and stored on the default device,
and the following write at the tx address turns the register from 0 to 4, setting
bit 2, which is not the bit indexed by the stored interrupt_bit; and with
interrupt_bit 32 a reset turns the register from 0xFF to 0xFE, clearing bit 0. -/
theorem C10_irq_bit_34_counterexample :
    (spi_config host0 dev0 world1 "irq_bit" ["34"]).ret = 0
    ∧ (spi_config host0 dev0 world1 "irq_bit" ["34"]).dev.interrupt_bit = 34
    ∧ (spi_config host0 dev0 world1 "irq_bit" ["34"]).world.IFG2 = 0
    ∧ (spi_write_b (spi_config host0 dev0 world1 "irq_bit" ["34"]).dev
        (spi_config host0 dev0 world1 "irq_bit" ["34"]).world 0x6F 0xAB).world.IFG2 = 4
    ∧ (2 : Nat) ≠ (spi_config host0 dev0 world1 "irq_bit" ["34"]).dev.interrupt_bit
    ∧ (spi_write_b (spi_config host0 dev0 world1 "irq_bit" ["34"]).dev
        (spi_config host0 dev0 world1 "irq_bit" ["34"]).world 0x6F 0xAB).world.IFG2.testBit 2
        ≠ (spi_config host0 dev0 world1 "irq_bit" ["34"]).world.IFG2.testBit 2
    ∧ (spi_config host0 dev0 world2 "irq_bit" ["32"]).dev.interrupt_bit = 32
    ∧ world2.IFG2 = 0xFF
    ∧ (spi_reset (spi_config host0 dev0 world2 "irq_bit" ["32"]).dev
        (spi_config host0 dev0 world2 "irq_bit" ["32"]).world).2.IFG2 = 0xFE
    ∧ (spi_reset (spi_config host0 dev0 world2 "irq_bit" ["32"]).dev
        (spi_config host0 dev0 world2 "irq_bit" ["32"]).world).2.IFG2.testBit 0
        ≠ world2.IFG2.testBit 0 := by
  refine ⟨?_, ?_, ?_, ?_, ?_, ?_, ?_, ?_, ?_, ?_⟩ <;> decide

/-! ## C11: the last operation in the report -/

/-- C11, evaluated on the code. For every device the fifth line of the report of
spi_info shows W when last_op is READ and R otherwise: the reverse of the claim. On
the freshly created default device, whose last_op is READ, the line shows W; right
after a write at the tx address, when last_op is WRITE, it shows R. -/
theorem C11_info_last_op_swapped (g : spi) :
    (spi_info g).2[4]?
      = some ("last op:             "
          ++ String.singleton (if g.last_op = READ then 'W' else 'R') ++ "\n")
    ∧ dev0.last_op = READ
    ∧ (spi_info dev0).2[4]? = some "last op:             W\n"
    ∧ (spi_write_b dev0 world1 0x6F 0xAB).dev.last_op = WRITE
    ∧ (spi_info (spi_write_b dev0 world1 0x6F 0xAB).dev).2[4]?
      = some "last op:             R\n" := by
  refine ⟨?_, by decide, by decide, by decide, by decide⟩
  by_cases hl : g.last_op = READ
  · have h0 : g.last_op = 0 := hl
    rw [if_pos hl]
    simp [spi_info, last_op_char, h0]
  · have h0 : g.last_op ≠ 0 := hl
    rw [if_neg hl]
    simp [spi_info, last_op_char, h0]

/-! ## C12: defaults and first write -/

/-- C12. When the default endpoint can be opened, spi_create returns a device with
rx address 0x006E, tx address 0x006F, interrupt_bit 2, rx_reg 0 and last_op READ;
writing 0xAB to 0x006F on it sends 0xAB on the device's socket and nothing else,
sets bit 0x04 of the shared register (the other bits stay) and leaves last_op at
WRITE. -/
theorem C12_defaults_first_write (h : Host) (w : World) (args : List String)
    (hopen : h.can_open "ipc:///tmp/simio_UCB0.sock" = true) :
    ∃ g w1, spi_create h w args = some (g, w1)
      ∧ g.rx_addr = 0x006E ∧ g.tx_addr = 0x006F ∧ g.interrupt_bit = 2
      ∧ g.rx_reg = 0 ∧ g.last_op = READ
      ∧ w1.IFG2 = w.IFG2
      ∧ (spi_write_b g w1 0x006F 0xAB).world.trace = w1.trace ++ [Event.send g.sock 0xAB]
      ∧ (spi_write_b g w1 0x006F 0xAB).world.IFG2 = w1.IFG2 ||| 0x04
      ∧ (spi_write_b g w1 0x006F 0xAB).world.IFG2.testBit 2 = true
      ∧ (spi_write_b g w1 0x006F 0xAB).dev.last_op = WRITE := by
  refine ⟨{ interrupt_bit := 2, rx_addr := 0x006E, tx_addr := 0x006F, rx_reg := 0x00,
            last_op := 0, sock := ⟨w.next_id, "ipc:///tmp/simio_UCB0.sock"⟩ },
          (zsock_new_req h w "ipc:///tmp/simio_UCB0.sock").2, ?_, rfl, rfl, rfl, rfl, rfl,
          ?_, ?_, ?_, ?_, ?_⟩
  · simp [spi_create, zsock_new_req, hopen]
  · simp [zsock_new_req, hopen]
  · simp [spi_write_b, zsock_send, simio_sfr_modify]
  · have hm : (shl1 2 % 256 % 256 : Nat) = 0x04 := by decide
    simp only [spi_write_b, if_true, simio_sfr_modify, zsock_send, hm, sfr_modify_self]
  · have hm : (shl1 2 % 256 % 256 : Nat) = 0x04 := by decide
    simp only [spi_write_b, if_true, simio_sfr_modify, zsock_send, hm, sfr_modify_self]
    rw [Nat.testBit_or]
    have : Nat.testBit 0x04 2 = true := by decide
    simp [this]
  · simp [spi_write_b]

/-- Witness for C12_defaults_first_write: the host that opens every endpoint but
bad://uri, and the empty world. -/
theorem C12_defaults_first_write_witness :
    host0.can_open "ipc:///tmp/simio_UCB0.sock" = true
    ∧ ∃ g w1, spi_create host0 world0 [] = some (g, w1)
      ∧ g.rx_addr = 0x006E ∧ g.tx_addr = 0x006F ∧ g.interrupt_bit = 2
      ∧ g.rx_reg = 0 ∧ g.last_op = READ
      ∧ w1.IFG2 = world0.IFG2
      ∧ (spi_write_b g w1 0x006F 0xAB).world.trace = w1.trace ++ [Event.send g.sock 0xAB]
      ∧ (spi_write_b g w1 0x006F 0xAB).world.IFG2 = w1.IFG2 ||| 0x04
      ∧ (spi_write_b g w1 0x006F 0xAB).world.IFG2.testBit 2 = true
      ∧ (spi_write_b g w1 0x006F 0xAB).dev.last_op = WRITE :=
  ⟨by decide, C12_defaults_first_write host0 world0 [] (by decide)⟩

/-! ## C13: unknown parameters -/

theorem strcasecmp_ne_zero (a b : String)
    (hne : a.data.map Char.toLower ≠ b.data.map Char.toLower) : strcasecmp a b ≠ 0 := by
  unfold strcasecmp
  rw [if_neg hne]
  split <;> decide

/-- C13, as the code has it. For every parameter name that, with its ASCII letters
lowered, is none of rx, tx, irq_bit and endpoint, and every argument stream,
spi_config returns -1, consumes no argument and leaves device and world as they
were. -/
theorem C13_unknown_parameter (h : Host) (g : spi) (w : World) (param : String)
    (args : List String)
    (hp : ∀ name ∈ ["rx", "tx", "irq_bit", "endpoint"],
            param.data.map Char.toLower ≠ name.data) :
    spi_config h g w param args = ⟨-1, g, w, args⟩ := by
  have h1 : strcasecmp param "rx" ≠ 0 :=
    strcasecmp_ne_zero _ _ (by simpa using hp "rx" (by simp))
  have h2 : strcasecmp param "tx" ≠ 0 :=
    strcasecmp_ne_zero _ _ (by simpa using hp "tx" (by simp))
  have h3 : strcasecmp param "irq_bit" ≠ 0 :=
    strcasecmp_ne_zero _ _ (by simpa using hp "irq_bit" (by simp))
  have h4 : strcasecmp param "endpoint" ≠ 0 :=
    strcasecmp_ne_zero _ _ (by simpa using hp "endpoint" (by simp))
  simp [spi_config, h1, h2, h3, h4]

/-- Witness for C13_unknown_parameter: the parameter base with one argument. -/
theorem C13_unknown_parameter_witness :
    (∀ name ∈ ["rx", "tx", "irq_bit", "endpoint"],
        "base".data.map Char.toLower ≠ name.data)
    ∧ spi_config host0 dev0 world1 "base" ["0x20"] = ⟨-1, dev0, world1, ["0x20"]⟩ :=
  ⟨by decide, C13_unknown_parameter host0 dev0 world1 "base" ["0x20"] (by decide)⟩

/-- C13, as stated, fails: the name RX is none of the four strings, yet spi_config
accepts it as rx, returns 0, consumes the argument and sets the rx address. -/
theorem C13_upper_case_counterexample :
    "RX" ≠ "rx" ∧ "RX" ≠ "tx" ∧ "RX" ≠ "irq_bit" ∧ "RX" ≠ "endpoint"
    ∧ (spi_config host0 dev0 world1 "RX" ["16"]).ret = 0
    ∧ (spi_config host0 dev0 world1 "RX" ["16"]).arg_text = []
    ∧ dev0.rx_addr = 0x6E
    ∧ (spi_config host0 dev0 world1 "RX" ["16"]).dev.rx_addr = 16 := by
  refine ⟨?_, ?_, ?_, ?_, ?_, ?_, ?_, ?_⟩ <;> decide

/-! ## C14: the stored interrupt bit -/

/-- C14, as the code has it. For every value v the argument of irq_bit evaluates to,
spi_config returns 0 and the stored interrupt_bit is v reduced modulo 256, the
conversion to uint8_t; so every v up to 255, the values 8 to 255 included, is stored
as given, without validation. -/
theorem C14_irq_bit_stored_mod_256 (h : Host) (g : spi) (w : World) (text : String)
    (rest : List String) (v : Nat) (he : h.expr_eval text = expr_result.ok v) :
    (spi_config h g w "irq_bit" (text :: rest)).ret = 0
    ∧ (spi_config h g w "irq_bit" (text :: rest)).dev.interrupt_bit = v % 256
    ∧ (v < 256 → (spi_config h g w "irq_bit" (text :: rest)).dev.interrupt_bit = v) := by
  have hc : spi_config h g w "irq_bit" (text :: rest)
      = ⟨0, { g with interrupt_bit := v % 256 }, w, rest⟩ := by
    simp [spi_config, strcasecmp_irq_bit, config_irq, get_arg, he]
  rw [hc]
  refine ⟨rfl, rfl, ?_⟩
  intro hv
  exact Nat.mod_eq_of_lt hv

/-- Witness for C14_irq_bit_stored_mod_256: irq_bit 200 on the default device is
stored as 200. -/
theorem C14_irq_bit_stored_mod_256_witness :
    host0.expr_eval "200" = expr_result.ok 200
    ∧ (spi_config host0 dev0 world1 "irq_bit" ["200"]).ret = 0
    ∧ (spi_config host0 dev0 world1 "irq_bit" ["200"]).dev.interrupt_bit = 200 :=
  ⟨by decide,
   (C14_irq_bit_stored_mod_256 host0 dev0 world1 "200" [] 200 (by decide)).1,
   (C14_irq_bit_stored_mod_256 host0 dev0 world1 "200" [] 200 (by decide)).2.2
     (by decide)⟩

/-- C14, as stated, fails: irq_bit 261 on the default device succeeds, and the
stored interrupt_bit is 5, not 261. -/
theorem C14_irq_bit_261_counterexample :
    host0.expr_eval "261" = expr_result.ok 261
    ∧ (spi_config host0 dev0 world1 "irq_bit" ["261"]).ret = 0
    ∧ (spi_config host0 dev0 world1 "irq_bit" ["261"]).dev.interrupt_bit = 5
    ∧ (spi_config host0 dev0 world1 "irq_bit" ["261"]).dev.interrupt_bit ≠ 261 := by
  refine ⟨?_, ?_, ?_, ?_⟩ <;> decide

/-! ## C15: what reset leaves alone -/

/-- C15. For every device state and world, spi_reset leaves rx address, tx address,
interrupt_bit and the socket of the device as they were, and issues nothing on the
transport: the traffic, the peer's replies and the sockets are as before. -/
theorem C15_reset_frame (g : spi) (w : World) :
    (spi_reset g w).1.rx_addr = g.rx_addr
    ∧ (spi_reset g w).1.tx_addr = g.tx_addr
    ∧ (spi_reset g w).1.interrupt_bit = g.interrupt_bit
    ∧ (spi_reset g w).1.sock = g.sock
    ∧ (spi_reset g w).2.trace = w.trace
    ∧ issued w (spi_reset g w).2 = []
    ∧ sends (issued w (spi_reset g w).2) = 0
    ∧ recvs (issued w (spi_reset g w).2) = 0
    ∧ (spi_reset g w).2.peer = w.peer
    ∧ (spi_reset g w).2.next_id = w.next_id := by
  have ht : (spi_reset g w).2.trace = w.trace ++ [] := by
    simp [spi_reset, simio_sfr_modify]
  refine ⟨rfl, rfl, rfl, rfl, rfl, ?_, ?_, ?_, rfl, rfl⟩
  · exact issued_of_append _ _ _ ht
  · rw [issued_of_append _ _ _ ht]; rfl
  · rw [issued_of_append _ _ _ ht]; rfl

/-! ## C16: a successful configuration changes one field -/

/-- C16. When spi_config returns 0: with rx the device afterwards is the device
before with rx_addr set to the value the argument evaluated to, and the world is
unchanged; with tx the same for tx_addr; with irq_bit the same for interrupt_bit
(the value converted to uint8_t); with endpoint the device afterwards is the device
before with the newly opened socket, and the shared register is unchanged. So
rx_reg, last_op and the other configuration fields keep their values in every
case. -/
theorem C16_config_one_field (h : Host) (g : spi) (w : World) (args : List String) :
    ((spi_config h g w "rx" args).ret = 0 →
      ∃ text rest v, args = text :: rest ∧ h.expr_eval text = expr_result.ok v
        ∧ (spi_config h g w "rx" args).dev = { g with rx_addr := v }
        ∧ (spi_config h g w "rx" args).world = w)
    ∧ ((spi_config h g w "tx" args).ret = 0 →
      ∃ text rest v, args = text :: rest ∧ h.expr_eval text = expr_result.ok v
        ∧ (spi_config h g w "tx" args).dev = { g with tx_addr := v }
        ∧ (spi_config h g w "tx" args).world = w)
    ∧ ((spi_config h g w "irq_bit" args).ret = 0 →
      ∃ text rest v, args = text :: rest ∧ h.expr_eval text = expr_result.ok v
        ∧ (spi_config h g w "irq_bit" args).dev = { g with interrupt_bit := v % 256 }
        ∧ (spi_config h g w "irq_bit" args).world = w)
    ∧ ((spi_config h g w "endpoint" args).ret = 0 →
      ∃ endpoint rest, args = endpoint :: rest ∧ h.can_open endpoint = true
        ∧ (spi_config h g w "endpoint" args).dev
            = { g with sock := ⟨w.next_id, endpoint⟩ }
        ∧ (spi_config h g w "endpoint" args).world.IFG2 = w.IFG2) := by
  refine ⟨?_, ?_, ?_, ?_⟩
  · intro hr
    cases args with
    | nil => simp [spi_config, strcasecmp_rx, config_addr, get_arg] at hr
    | cons text rest =>
      cases he : h.expr_eval text with
      | fail stored =>
        simp [spi_config, strcasecmp_rx, config_addr, get_arg, he] at hr
      | ok v =>
        exact ⟨text, rest, v, rfl, he,
          by simp [spi_config, strcasecmp_rx, config_addr, get_arg, he],
          by simp [spi_config, strcasecmp_rx, config_addr, get_arg, he]⟩
  · intro hr
    cases args with
    | nil => simp [spi_config, strcasecmp_tx, config_addr, get_arg] at hr
    | cons text rest =>
      cases he : h.expr_eval text with
      | fail stored =>
        simp [spi_config, strcasecmp_tx, config_addr, get_arg, he] at hr
      | ok v =>
        exact ⟨text, rest, v, rfl, he,
          by simp [spi_config, strcasecmp_tx, config_addr, get_arg, he],
          by simp [spi_config, strcasecmp_tx, config_addr, get_arg, he]⟩
  · intro hr
    cases args with
    | nil => simp [spi_config, strcasecmp_irq_bit, config_irq, get_arg] at hr
    | cons text rest =>
      cases he : h.expr_eval text with
      | fail stored =>
        simp [spi_config, strcasecmp_irq_bit, config_irq, get_arg, he] at hr
      | ok v =>
        exact ⟨text, rest, v, rfl, he,
          by simp [spi_config, strcasecmp_irq_bit, config_irq, get_arg, he],
          by simp [spi_config, strcasecmp_irq_bit, config_irq, get_arg, he]⟩
  · intro hr
    cases args with
    | nil => simp [spi_config, strcasecmp_endpoint, config_endpoint, get_arg] at hr
    | cons endpoint rest =>
      by_cases hk : h.can_open endpoint = true
      · exact ⟨endpoint, rest, rfl, hk,
          by simp [spi_config, strcasecmp_endpoint, config_endpoint, get_arg,
               zsock_new_req, hk],
          by simp [spi_config, strcasecmp_endpoint, config_endpoint, get_arg,
               zsock_new_req, hk, zsock_destroy]⟩
      · simp [spi_config, strcasecmp_endpoint, config_endpoint, get_arg,
          zsock_new_req, hk] at hr

/-- Witness for C16_config_one_field: rx 16 and endpoint tcp://peer:5555 on the
default device. -/
theorem C16_config_one_field_witness :
    (spi_config host0 dev0 world1 "rx" ["16"]).ret = 0
    ∧ (∃ text rest v, ["16"] = text :: rest ∧ host0.expr_eval text = expr_result.ok v
        ∧ (spi_config host0 dev0 world1 "rx" ["16"]).dev = { dev0 with rx_addr := v }
        ∧ (spi_config host0 dev0 world1 "rx" ["16"]).world = world1)
    ∧ (spi_config host0 dev0 world1 "rx" ["16"]).dev = { dev0 with rx_addr := 16 } :=
  ⟨by decide,
   (C16_config_one_field host0 dev0 world1 ["16"]).1 (by decide),
   by decide⟩

/-! ## C17: receives never outrun sends -/

theorem sends_append (a b : List Event) : sends (a ++ b) = sends a + sends b := by
  induction a with
  | nil => simp [sends]
  | cons e a ih =>
    cases e <;> simp [sends, ih]
    omega

theorem recvs_append (a b : List Event) : recvs (a ++ b) = recvs a + recvs b := by
  induction a with
  | nil => simp [recvs]
  | cons e a ih =>
    cases e <;> simp [recvs, ih]
    omega

theorem spi_config_traffic (h : Host) (g : spi) (w : World) (param : String)
    (args : List String) :
    (spi_config h g w param args).dev.last_op = g.last_op
    ∧ ∃ evs, (spi_config h g w param args).world.trace = w.trace ++ evs
        ∧ sends evs = 0 ∧ recvs evs = 0 := by
  simp only [spi_config]
  split
  · exact ⟨rfl, [], by simp, rfl, rfl⟩
  · split
    · exact ⟨rfl, [], by simp, rfl, rfl⟩
    · split
      · exact ⟨rfl, [], by simp, rfl, rfl⟩
      · split
        · cases args with
          | nil => exact ⟨rfl, [], by simp [config_endpoint, get_arg], rfl, rfl⟩
          | cons e r =>
            by_cases hk : h.can_open e = true
            · refine ⟨by simp [config_endpoint, get_arg, zsock_new_req, hk],
                [Event.new_req ⟨w.next_id, e⟩, Event.destroy g.sock], ?_, rfl, rfl⟩
              simp [config_endpoint, get_arg, zsock_new_req, hk, zsock_destroy]
            · exact ⟨by simp [config_endpoint, get_arg, zsock_new_req, hk], [],
                by simp [config_endpoint, get_arg, zsock_new_req, hk], rfl, rfl⟩
        · exact ⟨rfl, [], by simp, rfl, rfl⟩

theorem count_inv_bus_step (w0 : World) (st : spi × World) (op : BusOp)
    (hinv : count_inv w0 st) : count_inv w0 (bus_step st op) := by
  obtain ⟨g, w⟩ := st
  obtain ⟨evs, ht, hle, hlt⟩ := hinv
  simp only at ht hlt
  cases op with
  | write_b addr data =>
    by_cases ha : addr = g.tx_addr
    · refine ⟨evs ++ [Event.send g.sock data], ?_, ?_, ?_⟩
      · simp [bus_step, spi_write_b, ha, zsock_send, simio_sfr_modify, ht]
      · rw [sends_append, recvs_append]; simp [sends, recvs]; omega
      · intro _; rw [sends_append, recvs_append]; simp [sends, recvs]; omega
    · refine ⟨evs, ?_, hle, ?_⟩
      · simp [bus_step, spi_write_b, ha, ht]
      · simpa [bus_step, spi_write_b, ha] using hlt
  | read_b addr data =>
    by_cases ha : addr = g.rx_addr
    · by_cases hw : WRITE = g.last_op
      · have := hlt hw.symm
        refine ⟨evs ++ [Event.recv g.sock (w.peer 0)], ?_, ?_, ?_⟩
        · simp [bus_step, spi_read_b, ha, hw, zsock_recv, ht]
        · rw [sends_append, recvs_append]; simp [sends, recvs]; omega
        · intro hl
          simp only [bus_step, ha, spi_read_b_last_op] at hl
          exact absurd hl READ_ne_WRITE
      · refine ⟨evs, ?_, hle, ?_⟩
        · simp [bus_step, spi_read_b, ha, hw, ht]
        · intro hl
          simp only [bus_step, ha, spi_read_b_last_op] at hl
          exact absurd hl READ_ne_WRITE
    · refine ⟨evs, ?_, hle, ?_⟩
      · simp [bus_step, spi_read_b, ha, ht]
      · simpa [bus_step, spi_read_b, ha] using hlt
  | reset =>
    refine ⟨evs, ?_, hle, ?_⟩
    · simp [bus_step, spi_reset, simio_sfr_modify, ht]
    · simp [bus_step, spi_reset, READ, WRITE]

theorem count_inv_dev_step (h : Host) (w0 : World) (st : spi × World) (op : DevOp)
    (hinv : count_inv w0 st) : count_inv w0 (dev_step h st op) := by
  cases op with
  | bus op => exact count_inv_bus_step w0 st op hinv
  | config param args =>
    obtain ⟨evs, ht, hle, hlt⟩ := hinv
    obtain ⟨hl, evs1, ht1, hs1, hr1⟩ := spi_config_traffic h st.1 st.2 param args
    refine ⟨evs ++ evs1, ?_, ?_, ?_⟩
    · simp [dev_step, ht1, ht]
    · rw [sends_append, recvs_append]; omega
    · intro hw
      simp only [dev_step, hl] at hw
      have := hlt hw
      rw [sends_append, recvs_append]; omega

theorem count_inv_dev_run (h : Host) (w0 : World) (ops : List DevOp) (st : spi × World)
    (hinv : count_inv w0 st) : count_inv w0 (dev_run h ops st) := by
  induction ops generalizing st with
  | nil => simpa [dev_run] using hinv
  | cons op ops ih =>
    have := ih (dev_step h st op) (count_inv_dev_step h w0 st op hinv)
    simpa [dev_run] using this

/-- C17. From a freshly created device, after every sequence of spi_write_b,
spi_read_b, spi_reset and spi_config calls, the traffic issued since creation holds
no more receives than sends, and strictly fewer receives than sends whenever
last_op is WRITE. -/
theorem C17_recvs_le_sends (h : Host) (w : World) (args : List String) (g : spi)
    (w1 : World) (hc : spi_create h w args = some (g, w1)) (ops : List DevOp) :
    recvs (issued w1 (dev_run h ops (g, w1)).2) ≤ sends (issued w1 (dev_run h ops (g, w1)).2)
    ∧ ((dev_run h ops (g, w1)).1.last_op = WRITE →
        recvs (issued w1 (dev_run h ops (g, w1)).2)
          < sends (issued w1 (dev_run h ops (g, w1)).2)) := by
  have h0 : count_inv w1 (g, w1) := by
    refine ⟨[], by simp, le_refl _, ?_⟩
    intro hl
    have := spi_create_last_op h w args g w1 hc
    simp [WRITE] at hl
    omega
  obtain ⟨evs, ht, hle, hlt⟩ := count_inv_dev_run h w1 ops (g, w1) h0
  rw [issued_of_append _ _ _ ht]
  exact ⟨hle, hlt⟩

/-- Witness for C17_recvs_le_sends: on the default device a write, a change of the
rx address, a read at the new address, a reset and a second write. -/
theorem C17_recvs_le_sends_witness :
    spi_create host0 world0 [] = some (dev0, world1)
    ∧ recvs (issued world1 (dev_run host0
        [DevOp.bus (BusOp.write_b 0x6F 0xAB), DevOp.config "rx" ["16"],
         DevOp.bus (BusOp.read_b 16 0), DevOp.bus BusOp.reset,
         DevOp.bus (BusOp.write_b 0x6F 1)] (dev0, world1)).2)
      ≤ sends (issued world1 (dev_run host0
        [DevOp.bus (BusOp.write_b 0x6F 0xAB), DevOp.config "rx" ["16"],
         DevOp.bus (BusOp.read_b 16 0), DevOp.bus BusOp.reset,
         DevOp.bus (BusOp.write_b 0x6F 1)] (dev0, world1)).2)
    ∧ (dev_run host0
        [DevOp.bus (BusOp.write_b 0x6F 0xAB), DevOp.config "rx" ["16"],
         DevOp.bus (BusOp.read_b 16 0), DevOp.bus BusOp.reset,
         DevOp.bus (BusOp.write_b 0x6F 1)] (dev0, world1)).1.last_op = WRITE
    ∧ recvs (issued world1 (dev_run host0
        [DevOp.bus (BusOp.write_b 0x6F 0xAB), DevOp.config "rx" ["16"],
         DevOp.bus (BusOp.read_b 16 0), DevOp.bus BusOp.reset,
         DevOp.bus (BusOp.write_b 0x6F 1)] (dev0, world1)).2)
      < sends (issued world1 (dev_run host0
        [DevOp.bus (BusOp.write_b 0x6F 0xAB), DevOp.config "rx" ["16"],
         DevOp.bus (BusOp.read_b 16 0), DevOp.bus BusOp.reset,
         DevOp.bus (BusOp.write_b 0x6F 1)] (dev0, world1)).2) :=
  ⟨rfl, (C17_recvs_le_sends host0 world0 [] dev0 world1 rfl _).1, by decide,
   (C17_recvs_le_sends host0 world0 [] dev0 world1 rfl _).2 (by decide)⟩

/-! ## C18: reset and the owed reply -/

/-- C18, as the code has it. For every device state, world and byte b, a write of b
at the tx address, then spi_reset, then a read at the rx address issue the one send
of b and no receive; the read returns 0 with byte 0, and the peer's reply to that
write is still pending when the read returns. It is not lost for good: the next
write at the tx address followed by a read at the rx address issues one receive,
and that receive delivers the pending reply. -/
theorem C18_reset_leaves_reply_pending (g : spi) (w : World) (b d b2 d2 : uint8_t) :
    let st := spi_reset (spi_write_b g w g.tx_addr b).dev (spi_write_b g w g.tx_addr b).world
    let rd := spi_read_b st.1 st.2 g.rx_addr d
    let wr2 := spi_write_b rd.dev rd.world g.tx_addr b2
    let rd2 := spi_read_b wr2.dev wr2.world g.rx_addr d2
    rd.world.trace = w.trace ++ [Event.send g.sock b]
    ∧ sends (issued w rd.world) = 1
    ∧ recvs (issued w rd.world) = 0
    ∧ rd.ret = 0
    ∧ rd.data = 0
    ∧ rd.world.peer = w.peer
    ∧ rd2.world.trace
        = w.trace ++ [Event.send g.sock b, Event.send g.sock b2, Event.recv g.sock (w.peer 0)]
    ∧ rd2.ret = 0
    ∧ rd2.data = w.peer 0 := by
  intro st rd wr2 rd2
  have hst : st = ({ g with rx_reg := 0, last_op := READ },
      simio_sfr_modify
        (simio_sfr_modify (zsock_send w g.sock b)
          (shl1 g.interrupt_bit % 256) (shl1 g.interrupt_bit % 256))
        (shl1 g.interrupt_bit) 0) := by
    simp [st, spi_write_b, spi_reset]
  have hrd : rd = ⟨0, 0, { g with rx_reg := 0, last_op := READ }, st.2⟩ := by
    simp [rd, hst, spi_read_b, READ, WRITE]
  have ht : rd.world.trace = w.trace ++ [Event.send g.sock b] := by
    rw [hrd, hst]
    simp [simio_sfr_modify, zsock_send]
  have hwr2 : wr2 = ⟨1, { g with rx_reg := 0, last_op := WRITE },
      simio_sfr_modify (zsock_send st.2 g.sock b2)
        (shl1 g.interrupt_bit % 256) (shl1 g.interrupt_bit % 256)⟩ := by
    simp [wr2, hrd, spi_write_b]
  have hrd2 : rd2 = ⟨0, wr2.world.peer 0,
      { g with rx_reg := wr2.world.peer 0, last_op := READ },
      (zsock_recv wr2.world g.sock).2⟩ := by
    simp [rd2, hwr2, spi_read_b, zsock_recv]
  have hpeer : wr2.world.peer = w.peer := by
    rw [hwr2, hst]; rfl
  refine ⟨ht, ?_, ?_, ?_, ?_, ?_, ?_, ?_, ?_⟩
  · rw [issued_of_append _ _ _ ht]; rfl
  · rw [issued_of_append _ _ _ ht]; rfl
  · rw [hrd]
  · rw [hrd]
  · rw [hrd, hst]; rfl
  · rw [hrd2, hwr2, hst]
    simp [zsock_recv, simio_sfr_modify, zsock_send]
  · rw [hrd2]
  · rw [hrd2, hpeer]

/-- C18, as stated, fails in its conclusion: on the default device, with a peer
whose first reply is 0x50, the reply owed to the write of 0xAB is pending after
write, reset and read, and the next write and read consume it: the read after the
write of 0xCD receives 0x50. -/
theorem C18_reply_consumed_later_counterexample :
    world2.peer 0 = 0x50
    ∧ issued world2 (bus_run
        [BusOp.write_b 0x6F 0xAB, BusOp.reset, BusOp.read_b 0x6E 0] (dev0, world2)).2
        = [Event.send sock0 0xAB]
    ∧ (bus_run [BusOp.write_b 0x6F 0xAB, BusOp.reset, BusOp.read_b 0x6E 0]
        (dev0, world2)).2.peer 0 = 0x50
    ∧ issued world2 (bus_run
        [BusOp.write_b 0x6F 0xAB, BusOp.reset, BusOp.read_b 0x6E 0,
         BusOp.write_b 0x6F 0xCD, BusOp.read_b 0x6E 0] (dev0, world2)).2
        = [Event.send sock0 0xAB, Event.send sock0 0xCD, Event.recv sock0 0x50]
    ∧ (bus_run [BusOp.write_b 0x6F 0xAB, BusOp.reset, BusOp.read_b 0x6E 0,
         BusOp.write_b 0x6F 0xCD, BusOp.read_b 0x6E 0] (dev0, world2)).1.rx_reg = 0x50
    ∧ (bus_run [BusOp.write_b 0x6F 0xAB, BusOp.reset, BusOp.read_b 0x6E 0,
         BusOp.write_b 0x6F 0xCD, BusOp.read_b 0x6E 0] (dev0, world2)).2.peer 0 = 0x51 := by
  refine ⟨?_, ?_, ?_, ?_, ?_, ?_⟩ <;> decide

end SimioSpi
